import Mathlib

/-!
Verification of `gmail_agent/email_filter.py` (repository `mpc-bridge-compose`).

The file embeds the two public entry points, `categorize_email` and
`filter_emails`, as pure Lean functions over an explicit environment of
external collaborators (MCP session operations, the Gemini model backend,
and the stdlib JSON codec), following the module's control flow line by
line.  External operations are oracles returning `Except PyExc _`; a Python
exception raised by a collaborator is the `Except.error` case, and a Python
exception escaping an embedded function is an `Except.error` result.

Note on the source text: lines 55-70 of `email_filter.py` are a leftover
duplicate of the tool-declaration adapter (they reference the undefined
name `mcp_tools` and sit at an indentation that makes the module fail to
parse).  The only reading of the module under which its own unit tests
(`test_email_filter.py`) pass is the one with that inert duplicate absent,
and that is the semantics embedded here; the live adapter at lines 72-87 is
embedded as `geminiTools`.

Each embedded function also returns a trace of the external calls it
performed (model-backend requests and tool invocations), so that claims
about "the backend was never invoked" or "the tool is called exactly once
with exactly these arguments" are statable as equations on the trace.
-/

/-- A JSON value, the codomain of `json.loads` and the shape of tool
arguments, decoded tool results, and the error-marker records built by
`filter_emails`. -/
inductive JVal where
  | null : JVal
  | jbool : Bool → JVal
  | jnum : Int → JVal
  | jstr : String → JVal
  | jarr : List JVal → JVal
  | jobj : List (String × JVal) → JVal

/-- A Python exception value crossing an embedded boundary.  `typeError` is
kept distinct because the unguarded `json.dumps` at line 31 raises exactly
`TypeError` on non-serializable payloads; every other fault is opaque. -/
inductive PyExc where
  | typeError : String → PyExc
  | exc : String → PyExc
deriving DecidableEq

/-- The configuration surface read by both entry points: `MCP_SERVER_URL`
(resolved with its default at line 21), `MCP_STDIO_COMMAND` (line 41),
`MCP_STDIO_GMAIL_COMMAND` (line 150) and `SERP_API_KEY` (line 43). -/
structure Config where
  serverBaseUrl : String
  stdioCommand : String
  stdioGmailCommand : String
  serpApiKey : Option String

/-- The transport parameters each entry point constructs before opening a
session: `HttpServerParameters(base_url=...)` or
`StdioServerParameters(command=..., args=..., env=...)`. -/
inductive Transport where
  | http : String → Transport
  | stdio : String → List String → List (String × Option String) → Transport

/-- Python's `str.startswith`, embedded on the character data so that it is
computable by the kernel. -/
def pyStartswith (s p : String) : Bool :=
  p.data.isPrefixOf s.data

/-- Transport selection in `categorize_email` (lines 34-45): HTTP iff the
configured value is truthy (non-empty) and starts with `"http"`, otherwise
a stdio transport running `MCP_STDIO_COMMAND` with the SERP key in its
environment.  Pure: it only constructs parameters. -/
def categorizeTransport (cfg : Config) : Transport :=
  if (!cfg.serverBaseUrl.data.isEmpty) && pyStartswith cfg.serverBaseUrl "http" then
    Transport.http cfg.serverBaseUrl
  else
    Transport.stdio cfg.stdioCommand ["--connection_type", "stdio"]
      [("SERP_API_KEY", cfg.serpApiKey)]

/-- Transport selection in `filter_emails` (lines 143-153): same condition,
but the stdio branch runs `MCP_STDIO_GMAIL_COMMAND` and passes no
environment mapping. -/
def filterTransport (cfg : Config) : Transport :=
  if (!cfg.serverBaseUrl.data.isEmpty) && pyStartswith cfg.serverBaseUrl "http" then
    Transport.http cfg.serverBaseUrl
  else
    Transport.stdio cfg.stdioGmailCommand ["--connection_type", "stdio"] []

/-- A structured function-call request carried in a model part:
`function_call.name` and `function_call.args` (a string-keyed mapping).
`dict(function_call.args)` at line 110 copies the mapping unchanged. -/
structure FunCall where
  name : String
  args : List (String × JVal)

/-- A content part of a model-backend reply (`response.candidates[0].content
.parts[0]`): it optionally carries a function-call request and optionally
carries text.  `none` embeds a falsy/absent field. -/
structure MPart where
  function_call : Option FunCall
  text : Option String

/-- One part of a Turn as stored in the conversation history: either the
plain serializable dict `\x7b"text": s\x7d` (user prompts and the synthetic
error notes at lines 99 and 134), or the raw model-returned part object
appended verbatim at line 103. -/
inductive HPart where
  | textP : String → HPart
  | rawPart : MPart → HPart

/-- One Turn of the conversation history: `\x7b"role": ..., "parts": [...]\x7d`. -/
structure Turn where
  role : String
  parts : List HPart

/-- `json.dumps` serializability of a history part.  A plain text dict
serializes; a raw model part object is a protobuf value on which
`json.dumps` raises `TypeError` (it is not a dict/list/str/number). -/
def HPart.serializableB : HPart → Bool
  | .textP _ => true
  | .rawPart _ => false

/-- `json.dumps` serializability of one Turn. -/
def Turn.serializableB (t : Turn) : Bool :=
  t.parts.all HPart.serializableB

/-- `json.dumps` serializability of a whole payload of Turns — the logging
statement at line 31 evaluates `json.dumps(contents_payload, indent=2)`
eagerly (inside an f-string), outside every `try` block. -/
def serializableTurns (ts : List Turn) : Bool :=
  ts.all Turn.serializableB

/-- The user Turn built at line 29: role `"user"`, one text part wrapping
the email body behind the instruction prefix. -/
def mkUserPrompt (emailBody : String) : Turn :=
  ⟨"user", [HPart.textP ("Categorize the following email: " ++ emailBody)]⟩

/-- The synthetic model Turn recorded when the MCP session fails (line 134). -/
def sessionErrTurn : Turn :=
  ⟨"model", [HPart.textP "Error in MCP session."]⟩

/-- The synthetic model Turn recorded when the Gemini call fails (line 99). -/
def geminiErrTurn : Turn :=
  ⟨"model", [HPart.textP "Error calling Gemini."]⟩

/-- The model Turn appended at line 103: the raw first part of the first
candidate, echoed verbatim. -/
def mkModelTurn (p : MPart) : Turn :=
  ⟨"model", [HPart.rawPart p]⟩

/-- A tool descriptor as advertised by `session.list_tools()`:
name, description and `inputSchema` mapping. -/
structure MTool where
  name : String
  description : String
  inputSchema : List (String × JVal)

/-- One adapted function declaration handed to Gemini (lines 74-84):
the input schema filtered of `additionalProperties` and `$schema`. -/
structure GDecl where
  name : String
  description : String
  parameters : List (String × JVal)

/-- One `types.Tool` wrapper: a singleton declaration list per MCP tool. -/
structure GTool where
  function_declarations : List GDecl

/-- The tool-catalog adapter (lines 72-87): one `types.Tool` per discovered
tool, schema keys `additionalProperties` and `$schema` stripped. -/
def geminiTools (tl : List MTool) : List GTool :=
  tl.map fun t =>
    ⟨[⟨t.name, t.description,
       t.inputSchema.filter fun kv =>
         if kv.1 = "additionalProperties" then false
         else if kv.1 = "$schema" then false
         else true⟩]⟩

/-- The candidate content of a model reply (`candidate.content.parts`). -/
structure CContent where
  parts : List MPart

/-- One reply candidate. -/
structure Candidate where
  content : CContent

/-- A model-backend reply: the candidate list plus the convenience `text`
field (spec §6: present when no call was made; `none`/`""` are falsy). -/
structure GenResponse where
  candidates : List Candidate
  text : Option String

/-- One content part of an MCP tool result as consumed by
`categorize_email` (line 114): `text` is `none` when the part has no text
attribute (e.g. an image part), in which case the `.text` access raises
`AttributeError`, caught by the handler at line 119. -/
structure CatContent where
  text : Option String

/-- An MCP `call_tool` result as consumed by `categorize_email`. -/
structure CatToolResult where
  content : List CatContent

/-- The category result of one categorization: a plain string (direct model
text or a sentinel) or the JSON payload decoded from a tool result —
mirroring the two dynamic types `categorize_email` can return. -/
inductive Category where
  | strCat : String → Category
  | jsonCat : JVal → Category

/-- The trace of external calls one `categorize_email` run performs:
every model-backend request (payload and adapted declarations) and every
MCP tool invocation (name and arguments), in order. -/
structure CTrace where
  backendCalls : List (List Turn × List GTool)
  toolCalls : List (String × List (String × JVal))

/-- The environment of external collaborators for `categorize_email`: the
resolved configuration, the scoped session acquisition (`stdio_client` /
`http_client` plus `ClientSession`, line 48-49), the `initialize`
handshake (line 50), tool discovery (line 53), the Gemini request
(line 90), the MCP tool invocation (line 109), and `json.loads`
(line 114, `none` embedding a `JSONDecodeError`).  Each fallible operation
is an `Except`; raising collaborators are `Except.error`. -/
structure CatEnv where
  cfg : Config
  open_session : Transport → Except PyExc Unit
  init_handshake : Except PyExc Unit
  list_tools : Except PyExc (List MTool)
  generate_content : List Turn → List GTool → Except PyExc GenResponse
  call_tool : String → List (String × JVal) → Except PyExc CatToolResult
  json_loads : String → Option JVal

/-- The sentinel-with-error-note result of the outer `except` handler
(lines 131-135), paired with the trace accumulated so far. -/
def sessionFailPair (history : List Turn) (emailBody : String) (tr : CTrace) :
    Except PyExc (Category × List Turn) × CTrace :=
  (Except.ok (Category.strCat "error_mcp_session_categorization",
      history ++ [mkUserPrompt emailBody, sessionErrTurn]), tr)

/-- `categorize_email(email_body, history)` (lines 23-135, with the inert
duplicate block at lines 55-70 absent — see the file header).  The body
copies the history (line 28), builds the user prompt (line 29), eagerly
serializes the payload for logging (line 31, unguarded: `TypeError`
escapes), selects a transport (lines 34-45), then runs the guarded session:
open + handshake + discovery failures fall to the outer handler (sentinel
`error_mcp_session_categorization`); a Gemini failure returns
`unknown_category_error_gemini_api`; a function-call part drives a tool
invocation whose failure modes map to `error_calling_mcp_tool_<name>`,
`error_mcp_result_structure` and `error_mcp_json_decode`; a truthy direct
text is returned as the category; otherwise
`unknown_no_function_call_or_text`.  An empty candidate or part list raises
`IndexError` at line 102, caught by the outer handler. -/
def categorize_email (env : CatEnv) (emailBody : String) (history : List Turn) :
    Except PyExc (Category × List Turn) × CTrace :=
  if serializableTurns (history ++ [mkUserPrompt emailBody]) then
    match env.open_session (categorizeTransport env.cfg) with
    | .error _ => sessionFailPair history emailBody ⟨[], []⟩
    | .ok _ =>
      match env.init_handshake with
      | .error _ => sessionFailPair history emailBody ⟨[], []⟩
      | .ok _ =>
        match env.list_tools with
        | .error _ => sessionFailPair history emailBody ⟨[], []⟩
        | .ok mcpTools =>
          match env.generate_content (history ++ [mkUserPrompt emailBody]) (geminiTools mcpTools) with
          | .error _ =>
            (Except.ok (Category.strCat "unknown_category_error_gemini_api",
                history ++ [mkUserPrompt emailBody, geminiErrTurn]),
             ⟨[(history ++ [mkUserPrompt emailBody], geminiTools mcpTools)], []⟩)
          | .ok resp =>
            match resp.candidates with
            | [] => sessionFailPair history emailBody
                ⟨[(history ++ [mkUserPrompt emailBody], geminiTools mcpTools)], []⟩
            | cand :: _ =>
              match cand.content.parts with
              | [] => sessionFailPair history emailBody
                  ⟨[(history ++ [mkUserPrompt emailBody], geminiTools mcpTools)], []⟩
              | part :: _ =>
                match part.function_call with
                | some fc =>
                  match env.call_tool fc.name fc.args with
                  | .error _ =>
                    (Except.ok (Category.strCat ("error_calling_mcp_tool_" ++ fc.name),
                        history ++ [mkUserPrompt emailBody, mkModelTurn part]),
                     ⟨[(history ++ [mkUserPrompt emailBody], geminiTools mcpTools)],
                      [(fc.name, fc.args)]⟩)
                  | .ok toolResult =>
                    match toolResult.content with
                    | [] =>
                      (Except.ok (Category.strCat "error_mcp_result_structure",
                          history ++ [mkUserPrompt emailBody, mkModelTurn part]),
                       ⟨[(history ++ [mkUserPrompt emailBody], geminiTools mcpTools)],
                        [(fc.name, fc.args)]⟩)
                    | c0 :: _ =>
                      match c0.text with
                      | none =>
                        (Except.ok (Category.strCat "error_mcp_result_structure",
                            history ++ [mkUserPrompt emailBody, mkModelTurn part]),
                         ⟨[(history ++ [mkUserPrompt emailBody], geminiTools mcpTools)],
                          [(fc.name, fc.args)]⟩)
                      | some s =>
                        match env.json_loads s with
                        | none =>
                          (Except.ok (Category.strCat "error_mcp_json_decode",
                              history ++ [mkUserPrompt emailBody, mkModelTurn part]),
                           ⟨[(history ++ [mkUserPrompt emailBody], geminiTools mcpTools)],
                            [(fc.name, fc.args)]⟩)
                        | some v =>
                          (Except.ok (Category.jsonCat v,
                              history ++ [mkUserPrompt emailBody, mkModelTurn part]),
                           ⟨[(history ++ [mkUserPrompt emailBody], geminiTools mcpTools)],
                            [(fc.name, fc.args)]⟩)
                | none =>
                  match resp.text with
                  | some t =>
                    if t = "" then
                      (Except.ok (Category.strCat "unknown_no_function_call_or_text",
                          history ++ [mkUserPrompt emailBody, mkModelTurn part]),
                       ⟨[(history ++ [mkUserPrompt emailBody], geminiTools mcpTools)], []⟩)
                    else
                      (Except.ok (Category.strCat t,
                          history ++ [mkUserPrompt emailBody, mkModelTurn part]),
                       ⟨[(history ++ [mkUserPrompt emailBody], geminiTools mcpTools)], []⟩)
                  | none =>
                    (Except.ok (Category.strCat "unknown_no_function_call_or_text",
                        history ++ [mkUserPrompt emailBody, mkModelTurn part]),
                     ⟨[(history ++ [mkUserPrompt emailBody], geminiTools mcpTools)], []⟩)
  else
    (Except.error (PyExc.typeError "Object of type Part is not JSON serializable"), ⟨[], []⟩)

/-- One content part of the `gmail_fetch_emails` tool result as classified
by `filter_emails` (lines 173-186), duck-typed per spec §4.2/§4.5: an
optional text value, an optional `tool_code` value (falsy when `none` or
empty), and the `str(part)` rendering used by the unknown-part branch. -/
structure FPart where
  text : Option String
  tool_code : Option String
  asRepr : String

/-- An MCP `call_tool` result as consumed by `filter_emails`. -/
structure FilterToolResult where
  content : List FPart

/-- The trace of MCP tool invocations one `filter_emails` run performs. -/
structure FTrace where
  toolCalls : List (String × List (String × JVal))

/-- The environment of external collaborators for `filter_emails`: the
resolved configuration, scoped session acquisition (lines 156-157), the
`initialize` handshake (line 158), tool discovery (line 161), tool
invocation (line 170), and `json.loads` (line 178). -/
structure FilterEnv where
  cfg : Config
  open_session : Transport → Except PyExc Unit
  init_handshake : Except PyExc Unit
  list_tools : Except PyExc (List MTool)
  call_tool : String → List (String × JVal) → Except PyExc FilterToolResult
  json_loads : String → Option JVal

/-- The fixed arguments `filter_emails` passes to `gmail_fetch_emails`
(line 167): `\x7b"query": "unread", "max_results": 10\x7d`. -/
def dummyArgs : List (String × JVal) :=
  [("query", JVal.jstr "unread"), ("max_results", JVal.jnum 10)]

/-- The `elif part.tool_code / else` classification (lines 181-186),
reached when `part.text` is falsy. -/
def classifyNonText (p : FPart) : JVal :=
  match p.tool_code with
  | some c =>
    if c = "" then JVal.jobj [("unknown_part", JVal.jstr p.asRepr)]
    else JVal.jobj [("tool_code", JVal.jstr c)]
  | none => JVal.jobj [("unknown_part", JVal.jstr p.asRepr)]

/-- Classification of one result content part (lines 174-186): truthy text
is JSON-decoded, falling back to a raw-text record tagged `not_json`;
otherwise the tool-code / unknown-part branches. -/
def classifyPart (jl : String → Option JVal) (p : FPart) : JVal :=
  match p.text with
  | some t =>
    if t = "" then classifyNonText p
    else
      match jl t with
      | some v => v
      | none => JVal.jobj [("raw_text", JVal.jstr t), ("error", JVal.jstr "not_json")]
  | none => classifyNonText p

/-- The single-element error list the outer handler returns (line 198). -/
def sessionFailList : List JVal :=
  [JVal.jobj [("error", JVal.jstr "MCP client session failed for filtering")]]

/-- `filter_emails()` (lines 138-200).  Session acquisition, handshake or
discovery failure falls to the outer handler (line 196) and collapses to
`sessionFailList`; a missing `gmail_fetch_emails` capability returns the
not-found marker (line 195) without any invocation; an invocation failure
collapses to the failed-call marker (line 192); otherwise every result
content part is classified and accumulated (the `if result.content:` guard
at line 172 and the loop at 173-186 — an empty content list yields `[]`).
The function is total: every fault of a collaborator is caught, so the
embedding returns a plain list (plus the invocation trace). -/
def filter_emails (env : FilterEnv) : List JVal × FTrace :=
  match env.open_session (filterTransport env.cfg) with
  | .error _ => (sessionFailList, ⟨[]⟩)
  | .ok _ =>
    match env.init_handshake with
    | .error _ => (sessionFailList, ⟨[]⟩)
    | .ok _ =>
      match env.list_tools with
      | .error _ => (sessionFailList, ⟨[]⟩)
      | .ok tl =>
        if "gmail_fetch_emails" ∈ tl.map MTool.name then
          match env.call_tool "gmail_fetch_emails" dummyArgs with
          | .error _ =>
            ([JVal.jobj [("error", JVal.jstr "Failed to call gmail_fetch_emails")]],
             ⟨[("gmail_fetch_emails", dummyArgs)]⟩)
          | .ok result =>
            (result.content.map (classifyPart env.json_loads),
             ⟨[("gmail_fetch_emails", dummyArgs)]⟩)
        else
          ([JVal.jobj [("error", JVal.jstr "Tool gmail_fetch_emails not found")]], ⟨[]⟩)

def cfgHttpDefault : Config :=
  ⟨"http://localhost:8000/mcp", "mcp-flight-search", "mcp-gmail-tool", none⟩

def cfgStdio : Config := ⟨"", "mcp-flight-search", "mcp-gmail-tool", none⟩

def directTextPart : MPart := ⟨none, some "direct_category"⟩

def envDirectText : CatEnv :=
  { cfg := cfgHttpDefault
    open_session := fun _ => Except.ok ()
    init_handshake := Except.ok ()
    list_tools := Except.ok []
    generate_content := fun _ _ =>
      Except.ok ⟨[⟨⟨[directTextPart]⟩⟩], some "direct_category"⟩
    call_tool := fun _ _ => Except.ok ⟨[]⟩
    json_loads := fun _ => none }

def envSessionFail : CatEnv :=
  { cfg := cfgHttpDefault
    open_session := fun _ => Except.error (PyExc.exc "Stdio client failed to start")
    init_handshake := Except.ok ()
    list_tools := Except.ok []
    generate_content := fun _ _ => Except.error (PyExc.exc "unreachable")
    call_tool := fun _ _ => Except.error (PyExc.exc "unreachable")
    json_loads := fun _ => none }

def promoJson : String := "\x7b\"category\": \"promotions\"\x7d"

def promoObj : JVal := JVal.jobj [("category", JVal.jstr "promotions")]

def promoCall : FunCall := ⟨"categorize_tool", [("email_text", JVal.jstr "Buy now!")]⟩

def promoPart : MPart := ⟨some promoCall, none⟩

def toolDescW : MTool := ⟨"categorize_tool", "categorizes an email", [("type", JVal.jstr "object")]⟩

def envFunCall : CatEnv :=
  { cfg := cfgHttpDefault
    open_session := fun _ => Except.ok ()
    init_handshake := Except.ok ()
    list_tools := Except.ok [toolDescW]
    generate_content := fun _ _ => Except.ok ⟨[⟨⟨[promoPart]⟩⟩], none⟩
    call_tool := fun _ _ => Except.ok ⟨[⟨some promoJson⟩]⟩
    json_loads := fun s => if s = promoJson then some promoObj else none }

def gmailToolW : MTool := ⟨"gmail_fetch_emails", "fetches emails", []⟩

def fenvOpenFail : FilterEnv :=
  { cfg := cfgHttpDefault
    open_session := fun _ => Except.error (PyExc.exc "HTTP client broke")
    init_handshake := Except.ok ()
    list_tools := Except.ok []
    call_tool := fun _ _ => Except.error (PyExc.exc "unreachable")
    json_loads := fun _ => none }

def fenvCallFail : FilterEnv :=
  { cfg := cfgHttpDefault
    open_session := fun _ => Except.ok ()
    init_handshake := Except.ok ()
    list_tools := Except.ok [gmailToolW]
    call_tool := fun _ _ => Except.error (PyExc.exc "Tool call kaboom")
    json_loads := fun _ => none }

def fenvNoTool : FilterEnv :=
  { cfg := cfgHttpDefault
    open_session := fun _ => Except.ok ()
    init_handshake := Except.ok ()
    list_tools := Except.ok []
    call_tool := fun _ _ => Except.error (PyExc.exc "unreachable")
    json_loads := fun _ => none }

def fenvWithTool : FilterEnv :=
  { cfg := cfgHttpDefault
    open_session := fun _ => Except.ok ()
    init_handshake := Except.ok ()
    list_tools := Except.ok [gmailToolW]
    call_tool := fun _ _ =>
      Except.ok ⟨[⟨some "[\x7b\"id\": \"email_http\"\x7d]", none, "part"⟩]⟩
    json_loads := fun s =>
      if s = "[\x7b\"id\": \"email_http\"\x7d]" then
        some (JVal.jarr [JVal.jobj [("id", JVal.jstr "email_http")]])
      else none }

def demoHistory : List Turn :=
  [⟨"user", [HPart.textP "Hello model"]⟩, ⟨"model", [HPart.textP "Hello user"]⟩]

theorem pyStartswith_http_of_scheme {s : String}
    (h : pyStartswith s "http://" = true ∨ pyStartswith s "https://" = true) :
    pyStartswith s "http" = true := by
  unfold pyStartswith at *
  rcases h with h | h <;>
  · rw [List.isPrefixOf_iff_prefix] at *
    exact List.IsPrefix.trans (by decide) h

theorem pyStartswith_nonempty_of_scheme {s : String}
    (h : pyStartswith s "http://" = true ∨ pyStartswith s "https://" = true) :
    s.data.isEmpty = false := by
  unfold pyStartswith at h
  rcases h with h | h <;>
  · rw [List.isPrefixOf_iff_prefix] at h
    rcases h with ⟨t, ht⟩
    cases hs : s.data with
    | nil => rw [hs] at ht; simp at ht
    | cons a l => rfl

theorem serializableTurns_append_user (H : List Turn) (X : String) :
    serializableTurns (H ++ [mkUserPrompt X]) = serializableTurns H := by
  simp [serializableTurns, List.all_append, Turn.serializableB, mkUserPrompt,
    HPart.serializableB]

theorem categorize_email_ok_shape (env : CatEnv) (X : String) (H : List Turn)
    (c : Category) (H' : List Turn) (tr : CTrace)
    (h : categorize_email env X H = (Except.ok (c, H'), tr)) :
    ∃ m : Turn, m.role = "model" ∧
      ((∃ s, m.parts = [HPart.textP s]) ∨ (∃ p, m.parts = [HPart.rawPart p])) ∧
      H' = H ++ [mkUserPrompt X, m] := by
  unfold categorize_email sessionFailPair at h
  repeat' split at h
  all_goals (rw [Prod.mk.injEq] at h; obtain ⟨h1, h2⟩ := h)
  any_goals exact Except.noConfusion h1
  all_goals
    injection h1 with h3
  all_goals (rw [Prod.mk.injEq] at h3; obtain ⟨hc, hH⟩ := h3; subst hH)
  all_goals first
    | exact ⟨_, rfl, Or.inl ⟨_, rfl⟩, rfl⟩
    | exact ⟨_, rfl, Or.inr ⟨_, rfl⟩, rfl⟩

theorem get_append_two_left (l : List Turn) (a b : Turn) :
    (l ++ [a, b]).get? l.length = some a := by
  induction l with
  | nil => rfl
  | cons x xs ih => simpa using ih

theorem get_append_two_right (l : List Turn) (a b : Turn) :
    (l ++ [a, b]).get? (l.length + 1) = some b := by
  induction l with
  | nil => rfl
  | cons x xs ih => simpa using ih

theorem take_append_two (l : List Turn) (a b : Turn) :
    (l ++ [a, b]).take l.length = l := by
  induction l with
  | nil => rfl
  | cons x xs ih => simp

/-- C1: on every normal return of `categorize_email` — success, session
failure, backend failure, tool failure, decode failure, or an
unclassifiable reply — the returned history has length `len(H) + 2`, its
first `len(H)` entries are the prior history `H`, position `len(H)` is the
user Turn wrapping the input, and position `len(H) + 1` is a model Turn
holding either a synthetic text error note or a genuine raw model part. -/
theorem categorize_email_history_growth (env : CatEnv) (X : String) (H : List Turn)
    (c : Category) (H' : List Turn) (tr : CTrace)
    (h : categorize_email env X H = (Except.ok (c, H'), tr)) :
    H'.length = H.length + 2 ∧
    H'.take H.length = H ∧
    H'.get? H.length = some (mkUserPrompt X) ∧
    ∃ m : Turn, H'.get? (H.length + 1) = some m ∧ m.role = "model" ∧
      ((∃ s, m.parts = [HPart.textP s]) ∨ (∃ p, m.parts = [HPart.rawPart p])) := by
  obtain ⟨m, hrole, hshape, rfl⟩ := categorize_email_ok_shape env X H c H' tr h
  refine ⟨by simp, take_append_two H _ _, get_append_two_left H _ _,
    m, get_append_two_right H _ _, hrole, hshape⟩

/-- Witness for C1: the claim theorem applied at a concrete run, every
hypothesis discharged by evaluation. -/
theorem categorize_email_history_growth_witness :
    categorize_email envDirectText "hello" [] =
      (Except.ok (Category.strCat "direct_category",
          [mkUserPrompt "hello", mkModelTurn directTextPart]),
       ⟨[([mkUserPrompt "hello"], [])], []⟩) ∧
    ([mkUserPrompt "hello", mkModelTurn directTextPart].length = 2 ∧
     [mkUserPrompt "hello", mkModelTurn directTextPart].take 0 = [] ∧
     [mkUserPrompt "hello", mkModelTurn directTextPart].get? 0 = some (mkUserPrompt "hello") ∧
     ∃ m : Turn, [mkUserPrompt "hello", mkModelTurn directTextPart].get? 1 = some m ∧
       m.role = "model" ∧
       ((∃ s, m.parts = [HPart.textP s]) ∨ (∃ p, m.parts = [HPart.rawPart p]))) :=
  ⟨rfl, categorize_email_history_growth envDirectText "hello" [] _ _ _ rfl⟩

/-- C2 counterexample: `categorize_email` does raise to its caller.  The
history here is exactly what a previous successful direct-text run returns
(two plain turns plus the user Turn and the raw model part appended at
line 103); the eager `json.dumps` in the logging f-string at line 31 sits
outside every `try` block and raises `TypeError` on the raw part, before
any session or backend activity. -/
theorem categorize_email_raises_on_raw_model_part_history :
    (categorize_email envDirectText "Another email"
        (demoHistory ++ [mkUserPrompt "First email", mkModelTurn directTextPart])).1 =
      Except.error (PyExc.typeError "Object of type Part is not JSON serializable") :=
  rfl

/-- C2 (amended): for every behaviour of the session and model backend,
`categorize_email` returns a normally-computed `(category, history)` pair —
never an escaping exception — provided every part of the given history is
JSON-serializable plain data.  (The unamended claim is refuted by
`categorize_email_raises_on_raw_model_part_history`: the unguarded
`json.dumps` at line 31 raises `TypeError` when the history holds a raw
model part object, which the success paths of the function itself
produce.) -/
theorem categorize_email_no_raise_on_serializable_history (env : CatEnv) (X : String) (H : List Turn)
    (hser : serializableTurns H = true) :
    ∃ c H' tr, categorize_email env X H = (Except.ok (c, H'), tr) := by
  unfold categorize_email sessionFailPair
  rw [serializableTurns_append_user, hser]
  simp only [if_true]
  repeat' split
  all_goals exact ⟨_, _, _, rfl⟩

/-- Witness for C2: the claim theorem applied at a concrete run, every
hypothesis discharged by evaluation. -/
theorem categorize_email_no_raise_on_serializable_history_witness :
    serializableTurns demoHistory = true ∧
    ∃ c H' tr, categorize_email envDirectText "hi" demoHistory =
      (Except.ok (c, H'), tr) :=
  ⟨rfl, categorize_email_no_raise_on_serializable_history envDirectText "hi" demoHistory rfl⟩

/-- C3: whenever the backend's first candidate's first part carries a
function call, the named tool is invoked with exactly the call's arguments
(the trace records the single invocation `(fc.name, fc.args)` untouched),
and a tool result whose first content text JSON-decodes to
`\x7b"category": "promotions"\x7d` makes the decoded payload the returned
category result. -/
theorem categorize_email_function_call_promotions (env : CatEnv) (X : String)
    (H : List Turn) (mcpTools : List MTool) (resp : GenResponse)
    (cand : Candidate) (cs : List Candidate) (part : MPart) (ps : List MPart)
    (fc : FunCall) (tres : CatToolResult) (c0 : CatContent)
    (rest : List CatContent) (s : String)
    (hser : serializableTurns H = true)
    (hopen : env.open_session (categorizeTransport env.cfg) = Except.ok ())
    (hinit : env.init_handshake = Except.ok ())
    (hlist : env.list_tools = Except.ok mcpTools)
    (hgen : env.generate_content (H ++ [mkUserPrompt X]) (geminiTools mcpTools) =
      Except.ok resp)
    (hcand : resp.candidates = cand :: cs)
    (hparts : cand.content.parts = part :: ps)
    (hfc : part.function_call = some fc)
    (hcall : env.call_tool fc.name fc.args = Except.ok tres)
    (hcontent : tres.content = c0 :: rest)
    (htext : c0.text = some s)
    (hdecode : env.json_loads s =
      some (JVal.jobj [("category", JVal.jstr "promotions")])) :
    categorize_email env X H =
      (Except.ok (Category.jsonCat (JVal.jobj [("category", JVal.jstr "promotions")]),
          H ++ [mkUserPrompt X, mkModelTurn part]),
       ⟨[(H ++ [mkUserPrompt X], geminiTools mcpTools)], [(fc.name, fc.args)]⟩) := by
  unfold categorize_email
  rw [serializableTurns_append_user, hser]
  simp only [if_true, hopen, hinit, hlist, hgen, hcand, hparts, hfc, hcall,
    hcontent, htext, hdecode]

/-- Witness for C3: the claim theorem applied at a concrete run, every
hypothesis discharged by evaluation. -/
theorem categorize_email_function_call_promotions_witness :
    serializableTurns ([] : List Turn) = true ∧
    envFunCall.json_loads promoJson = some promoObj ∧
    categorize_email envFunCall "Cheap deals" [] =
      (Except.ok (Category.jsonCat promoObj,
          [mkUserPrompt "Cheap deals", mkModelTurn promoPart]),
       ⟨[([mkUserPrompt "Cheap deals"], geminiTools [toolDescW])],
        [("categorize_tool", [("email_text", JVal.jstr "Buy now!")])]⟩) :=
  ⟨rfl, rfl,
   categorize_email_function_call_promotions envFunCall "Cheap deals" []
     _ _ _ _ _ _ _ _ _ _ _ rfl rfl rfl rfl rfl rfl rfl rfl rfl rfl rfl rfl⟩

/-- C4: if transport/session establishment or the initialize handshake
fails, `categorize_email` returns the sentinel
`error_mcp_session_categorization` with history = prior history + user
Turn + the synthetic "Error in MCP session." model Turn, and the backend
trace is empty; and on every other normal return (any category other than
that sentinel) the model backend was invoked. -/
theorem categorize_email_session_failure_sentinel (env : CatEnv) (X : String)
    (H : List Turn) (hser : serializableTurns H = true) :
    (((∃ e, env.open_session (categorizeTransport env.cfg) = Except.error e) ∨
      (env.open_session (categorizeTransport env.cfg) = Except.ok () ∧
        ∃ e, env.init_handshake = Except.error e)) →
      categorize_email env X H =
        (Except.ok (Category.strCat "error_mcp_session_categorization",
            H ++ [mkUserPrompt X, sessionErrTurn]),
         ⟨[], []⟩)) ∧
    (∀ c H' tr, categorize_email env X H = (Except.ok (c, H'), tr) →
      c ≠ Category.strCat "error_mcp_session_categorization" →
      tr.backendCalls ≠ []) := by
  constructor
  · intro h
    unfold categorize_email sessionFailPair
    rw [serializableTurns_append_user, hser]
    rcases h with ⟨e, he⟩ | ⟨hok, e, he⟩
    · simp only [if_true, he]
    · simp only [if_true, hok, he]
  · intro c H' tr h hc
    unfold categorize_email sessionFailPair at h
    repeat' split at h
    all_goals (rw [Prod.mk.injEq] at h; obtain ⟨h1, h2⟩ := h)
    any_goals exact Except.noConfusion h1
    all_goals injection h1 with h3
    all_goals (rw [Prod.mk.injEq] at h3; obtain ⟨hcat, hH⟩ := h3)
    all_goals first
      | exact absurd hcat.symm hc
      | (subst h2; simp)

/-- Witness for C4: the claim theorem applied at a concrete run, every
hypothesis discharged by evaluation. -/
theorem categorize_email_session_failure_sentinel_witness :
    serializableTurns ([] : List Turn) = true ∧
    (∃ e, envSessionFail.open_session (categorizeTransport envSessionFail.cfg) =
      Except.error e) ∧
    categorize_email envSessionFail "Email with MCP session error" [] =
      (Except.ok (Category.strCat "error_mcp_session_categorization",
          [mkUserPrompt "Email with MCP session error", sessionErrTurn]),
       ⟨[], []⟩) :=
  ⟨rfl, ⟨PyExc.exc "Stdio client failed to start", rfl⟩,
   (categorize_email_session_failure_sentinel envSessionFail
       "Email with MCP session error" [] rfl).1
     (Or.inl ⟨PyExc.exc "Stdio client failed to start", rfl⟩)⟩

/-- C5: transport selection in both entry points is a pure function of the
configuration: a configured value starting with an HTTP scheme selects the
network transport (the stdio transport is never constructed — the result
is the `http` constructor), and an empty or non-URL-like value selects the
local-process transport with the respective command, `http` never
constructed.  The selectors only build parameter values; no connection is
attempted (their codomain is the parameter type `Transport`). -/
theorem transport_selection_by_scheme (cfg : Config) :
    ((pyStartswith cfg.serverBaseUrl "http://" = true ∨
      pyStartswith cfg.serverBaseUrl "https://" = true) →
      categorizeTransport cfg = Transport.http cfg.serverBaseUrl ∧
      filterTransport cfg = Transport.http cfg.serverBaseUrl) ∧
    ((cfg.serverBaseUrl = "" ∨ pyStartswith cfg.serverBaseUrl "http" = false) →
      categorizeTransport cfg =
        Transport.stdio cfg.stdioCommand ["--connection_type", "stdio"]
          [("SERP_API_KEY", cfg.serpApiKey)] ∧
      filterTransport cfg =
        Transport.stdio cfg.stdioGmailCommand ["--connection_type", "stdio"] []) := by
  constructor
  · intro h
    have h1 := pyStartswith_http_of_scheme h
    have h2 := pyStartswith_nonempty_of_scheme h
    unfold categorizeTransport filterTransport
    rw [h1, h2]
    exact ⟨rfl, rfl⟩
  · intro h
    unfold categorizeTransport filterTransport
    rcases h with h | h
    · rw [h]
      exact ⟨rfl, rfl⟩
    · rw [h]
      simp

/-- Witness for C5: the claim theorem applied at a concrete run, every
hypothesis discharged by evaluation. -/
theorem transport_selection_by_scheme_witness :
    pyStartswith "http://localhost:8000/mcp" "http://" = true ∧
    categorizeTransport cfgHttpDefault = Transport.http "http://localhost:8000/mcp" ∧
    filterTransport cfgHttpDefault = Transport.http "http://localhost:8000/mcp" ∧
    cfgStdio.serverBaseUrl = "" ∧
    categorizeTransport cfgStdio =
      Transport.stdio "mcp-flight-search" ["--connection_type", "stdio"]
        [("SERP_API_KEY", none)] ∧
    filterTransport cfgStdio =
      Transport.stdio "mcp-gmail-tool" ["--connection_type", "stdio"] [] :=
  ⟨rfl,
   ((transport_selection_by_scheme cfgHttpDefault).1 (Or.inl rfl)).1,
   ((transport_selection_by_scheme cfgHttpDefault).1 (Or.inl rfl)).2,
   rfl,
   ((transport_selection_by_scheme cfgStdio).2 (Or.inl rfl)).1,
   ((transport_selection_by_scheme cfgStdio).2 (Or.inl rfl)).2⟩

/-- C6: when the model returns the text `"direct_category"` and its first
part carries no function call, `categorize_email` returns category
`"direct_category"`, the tool-invocation trace is empty (the session's
invoke operation was never called), and the raw text part is appended as
the model Turn of the updated history. -/
theorem categorize_email_direct_text_no_invoke (env : CatEnv) (X : String)
    (H : List Turn) (mcpTools : List MTool) (resp : GenResponse)
    (cand : Candidate) (cs : List Candidate) (part : MPart) (ps : List MPart)
    (hser : serializableTurns H = true)
    (hopen : env.open_session (categorizeTransport env.cfg) = Except.ok ())
    (hinit : env.init_handshake = Except.ok ())
    (hlist : env.list_tools = Except.ok mcpTools)
    (hgen : env.generate_content (H ++ [mkUserPrompt X]) (geminiTools mcpTools) =
      Except.ok resp)
    (hcand : resp.candidates = cand :: cs)
    (hparts : cand.content.parts = part :: ps)
    (hfc : part.function_call = none)
    (_hparttext : part.text = some "direct_category")
    (htext : resp.text = some "direct_category") :
    categorize_email env X H =
      (Except.ok (Category.strCat "direct_category",
          H ++ [mkUserPrompt X, mkModelTurn part]),
       ⟨[(H ++ [mkUserPrompt X], geminiTools mcpTools)], []⟩) := by
  unfold categorize_email
  rw [serializableTurns_append_user, hser]
  simp only [if_true, hopen, hinit, hlist, hgen, hcand, hparts, hfc, htext]
  rfl

/-- Witness for C6: the claim theorem applied at a concrete run, every
hypothesis discharged by evaluation. -/
theorem categorize_email_direct_text_no_invoke_witness :
    serializableTurns ([] : List Turn) = true ∧
    categorize_email envDirectText "Direct text email" [] =
      (Except.ok (Category.strCat "direct_category",
          [mkUserPrompt "Direct text email", mkModelTurn directTextPart]),
       ⟨[([mkUserPrompt "Direct text email"], [])], []⟩) :=
  ⟨rfl,
   categorize_email_direct_text_no_invoke envDirectText "Direct text email" []
     _ _ _ _ _ _ rfl rfl rfl rfl rfl rfl rfl rfl rfl rfl⟩

/-- C7: `filter_emails` is a total function into a list (the embedding
returns `List JVal` — no escaping exception exists on any path): any
session-establishment failure (open, handshake, or discovery) collapses to
exactly `[\x7b"error": "MCP client session failed for filtering"\x7d]`, and any
failure of the tool invocation itself collapses to exactly
`[\x7b"error": "Failed to call gmail_fetch_emails"\x7d]`. -/
theorem filter_emails_error_collapse (env : FilterEnv) :
    (((∃ e, env.open_session (filterTransport env.cfg) = Except.error e) ∨
      (env.open_session (filterTransport env.cfg) = Except.ok () ∧
        ∃ e, env.init_handshake = Except.error e) ∨
      (env.open_session (filterTransport env.cfg) = Except.ok () ∧
        env.init_handshake = Except.ok () ∧
        ∃ e, env.list_tools = Except.error e)) →
      filter_emails env = (sessionFailList, ⟨[]⟩)) ∧
    (∀ tl, env.open_session (filterTransport env.cfg) = Except.ok () →
      env.init_handshake = Except.ok () →
      env.list_tools = Except.ok tl →
      "gmail_fetch_emails" ∈ tl.map MTool.name →
      (∃ e, env.call_tool "gmail_fetch_emails" dummyArgs = Except.error e) →
      filter_emails env =
        ([JVal.jobj [("error", JVal.jstr "Failed to call gmail_fetch_emails")]],
         ⟨[("gmail_fetch_emails", dummyArgs)]⟩)) := by
  constructor
  · intro h
    unfold filter_emails
    rcases h with ⟨e, he⟩ | ⟨hok, e, he⟩ | ⟨hok, hok2, e, he⟩
    · simp only [he]
    · simp only [hok, he]
    · simp only [hok, hok2, he]
  · intro tl hok hok2 hlist hmem hcall
    obtain ⟨e, he⟩ := hcall
    unfold filter_emails
    simp only [hok, hok2, hlist]
    rw [if_pos hmem, he]

/-- Witness for C7: the claim theorem applied at a concrete run, every
hypothesis discharged by evaluation. -/
theorem filter_emails_error_collapse_witness :
    (∃ e, fenvOpenFail.open_session (filterTransport fenvOpenFail.cfg) =
      Except.error e) ∧
    filter_emails fenvOpenFail = (sessionFailList, ⟨[]⟩) ∧
    (∃ e, fenvCallFail.call_tool "gmail_fetch_emails" dummyArgs = Except.error e) ∧
    filter_emails fenvCallFail =
      ([JVal.jobj [("error", JVal.jstr "Failed to call gmail_fetch_emails")]],
       ⟨[("gmail_fetch_emails", dummyArgs)]⟩) :=
  ⟨⟨PyExc.exc "HTTP client broke", rfl⟩,
   (filter_emails_error_collapse fenvOpenFail).1
     (Or.inl ⟨PyExc.exc "HTTP client broke", rfl⟩),
   ⟨PyExc.exc "Tool call kaboom", rfl⟩,
   (filter_emails_error_collapse fenvCallFail).2 [gmailToolW] rfl rfl rfl
     (by decide) ⟨PyExc.exc "Tool call kaboom", rfl⟩⟩

/-- C8: when discovery yields a tool list whose names do not contain
`gmail_fetch_emails`, `filter_emails` returns exactly
`[\x7b"error": "Tool gmail_fetch_emails not found"\x7d]` and the invocation
trace is empty — no tool is ever invoked on that execution. -/
theorem filter_emails_tool_not_found (env : FilterEnv) (tl : List MTool)
    (hok : env.open_session (filterTransport env.cfg) = Except.ok ())
    (hok2 : env.init_handshake = Except.ok ())
    (hlist : env.list_tools = Except.ok tl)
    (hmem : "gmail_fetch_emails" ∉ tl.map MTool.name) :
    filter_emails env =
      ([JVal.jobj [("error", JVal.jstr "Tool gmail_fetch_emails not found")]],
       ⟨[]⟩) := by
  unfold filter_emails
  simp only [hok, hok2, hlist]
  rw [if_neg hmem]

/-- Witness for C8: the claim theorem applied at a concrete run, every
hypothesis discharged by evaluation. -/
theorem filter_emails_tool_not_found_witness :
    fenvNoTool.list_tools = Except.ok [] ∧
    filter_emails fenvNoTool =
      ([JVal.jobj [("error", JVal.jstr "Tool gmail_fetch_emails not found")]],
       ⟨[]⟩) :=
  ⟨rfl, filter_emails_tool_not_found fenvNoTool [] rfl rfl rfl (by decide)⟩

/-- C9: `categorize_email` never mutates the caller's history: the Python
body copies it (`list(history or [])`, line 28) and builds the result with
non-mutating `+`, so the embedding is a pure function of the input list,
and on every normal return the new history equals the caller's `H`
followed by the user Turn and one model Turn — the caller may retain,
discard, or branch `H` independently. -/
theorem categorize_email_input_history_preserved (env : CatEnv) (X : String)
    (H : List Turn) (c : Category) (H' : List Turn) (tr : CTrace)
    (h : categorize_email env X H = (Except.ok (c, H'), tr)) :
    ∃ m : Turn, m.role = "model" ∧ H' = H ++ [mkUserPrompt X, m] := by
  obtain ⟨m, hrole, _, hH⟩ := categorize_email_ok_shape env X H c H' tr h
  exact ⟨m, hrole, hH⟩

/-- Witness for C9: the claim theorem applied at a concrete run, every
hypothesis discharged by evaluation. -/
theorem categorize_email_input_history_preserved_witness :
    categorize_email envDirectText "Another email" demoHistory =
      (Except.ok (Category.strCat "direct_category",
          demoHistory ++ [mkUserPrompt "Another email", mkModelTurn directTextPart]),
       ⟨[(demoHistory ++ [mkUserPrompt "Another email"], [])], []⟩) ∧
    (∃ m : Turn, m.role = "model" ∧
      demoHistory ++ [mkUserPrompt "Another email", mkModelTurn directTextPart] =
        demoHistory ++ [mkUserPrompt "Another email", m]) :=
  ⟨rfl, categorize_email_input_history_preserved envDirectText "Another email"
    demoHistory _ _ _ rfl⟩

/-- C10: whenever the discovered tool list contains `gmail_fetch_emails`,
that tool is invoked exactly once, with arguments exactly
`\x7b"query": "unread", "max_results": 10\x7d`, regardless of the invocation's
outcome and of everything else in the environment (`filter_emails` takes
no parameters). -/
theorem filter_emails_fetch_called_exactly_once (env : FilterEnv) (tl : List MTool)
    (hok : env.open_session (filterTransport env.cfg) = Except.ok ())
    (hok2 : env.init_handshake = Except.ok ())
    (hlist : env.list_tools = Except.ok tl)
    (hmem : "gmail_fetch_emails" ∈ tl.map MTool.name) :
    (filter_emails env).2 =
      ⟨[("gmail_fetch_emails",
         [("query", JVal.jstr "unread"), ("max_results", JVal.jnum 10)])]⟩ := by
  unfold filter_emails
  simp only [hok, hok2, hlist]
  rw [if_pos hmem]
  cases hc : env.call_tool "gmail_fetch_emails" dummyArgs <;> simp only [hc] <;> rfl

/-- Witness for C10: the claim theorem applied at a concrete run, every
hypothesis discharged by evaluation. -/
theorem filter_emails_fetch_called_exactly_once_witness :
    fenvWithTool.list_tools = Except.ok [gmailToolW] ∧
    "gmail_fetch_emails" ∈ [gmailToolW].map MTool.name ∧
    (filter_emails fenvWithTool).2 =
      ⟨[("gmail_fetch_emails",
         [("query", JVal.jstr "unread"), ("max_results", JVal.jnum 10)])]⟩ :=
  ⟨rfl, by decide,
   filter_emails_fetch_called_exactly_once fenvWithTool [gmailToolW] rfl rfl rfl
     (by decide)⟩
